import Mathlib

/-!
Shallow embedding of `src/imap_handler.py`, a chain-of-responsibility
pipeline that builds mail credentials, authenticates IMAP and SMTP
sessions and enumerates message headers.

Modelling conventions:
* Python exceptions are modelled with `Except Err`.
* External network collaborators (imaplib, smtplib) are modelled by
  explicit outcome environments; each call the source makes is recorded
  in an event trace, so "this call never happens" is a statement about
  the trace.
* `dict` subscripting that can fail is `getItem`; pydantic model
  construction is field-by-field validation in declaration order with
  lax coercion (numeric strings coerce to `int`, ints coerce to `str`).
-/

/-- Exception classes raised by the program or its collaborators. -/
inductive Err where
  | keyError
  | validationError
  | connectionError
  | authenticationError
  | mailboxError
  | searchError
  | fetchError
  | decodeError
  | typeError
  deriving DecidableEq

/-- Untyped values a raw request dictionary can hold. -/
inductive PyPrim where
  | pstr (s : String)
  | pint (n : Int)
  | pnone
  deriving DecidableEq

/-- The raw request mapping, restricted to the six keys the program reads;
a field holding `none` means that key is absent from the dictionary. -/
structure RawRequest where
  user_name : Option PyPrim
  password : Option PyPrim
  imap_ssl_port : Option PyPrim
  imap_ssl_host : Option PyPrim
  smtp_ssl_port : Option PyPrim
  smtp_ssl_host : Option PyPrim
  deriving DecidableEq

/-- The validated pydantic model `EmailData` of the source. -/
structure EmailData where
  user_name : String
  password : String
  imap_ssl_port : Int
  imap_ssl_host : String
  smtp_ssl_port : Int
  smtp_ssl_host : String
  deriving DecidableEq

/-- Dictionary subscript `request[key]`: raises `KeyError` when the key is
absent. -/
def getItem : Option PyPrim → Except Err PyPrim
  | some v => Except.ok v
  | none => Except.error Err.keyError

/-- Pydantic validation of a `str` field: strings pass through unchanged,
ints are coerced to their decimal rendering, `None` is rejected. -/
def validateStr : PyPrim → Except Err String
  | PyPrim.pstr s => Except.ok s
  | PyPrim.pint n => Except.ok (toString n)
  | PyPrim.pnone => Except.error Err.validationError

/-- Pydantic validation of an `int` field: ints pass through unchanged,
decimal strings are coerced, anything else is rejected. -/
def validateInt : PyPrim → Except Err Int
  | PyPrim.pint n => Except.ok n
  | PyPrim.pstr s =>
    match s.toInt? with
    | some n => Except.ok n
    | none => Except.error Err.validationError
  | PyPrim.pnone => Except.error Err.validationError

/-- `ImapHandler.execute`: reads the six keys from the raw request (each
subscript may raise `KeyError`; argument evaluation happens before the
constructor runs), then builds the pydantic `EmailData` model, which
validates each field in declaration order. -/
def ImapHandler.execute (rq : RawRequest) : Except Err EmailData :=
  match getItem rq.user_name with
  | Except.error e => Except.error e
  | Except.ok u =>
  match getItem rq.password with
  | Except.error e => Except.error e
  | Except.ok p =>
  match getItem rq.imap_ssl_port with
  | Except.error e => Except.error e
  | Except.ok ipo =>
  match getItem rq.imap_ssl_host with
  | Except.error e => Except.error e
  | Except.ok iho =>
  match getItem rq.smtp_ssl_port with
  | Except.error e => Except.error e
  | Except.ok spo =>
  match getItem rq.smtp_ssl_host with
  | Except.error e => Except.error e
  | Except.ok sho =>
  match validateStr u with
  | Except.error e => Except.error e
  | Except.ok fu =>
  match validateStr p with
  | Except.error e => Except.error e
  | Except.ok fp =>
  match validateInt ipo with
  | Except.error e => Except.error e
  | Except.ok fip =>
  match validateStr iho with
  | Except.error e => Except.error e
  | Except.ok fih =>
  match validateInt spo with
  | Except.error e => Except.error e
  | Except.ok fsp =>
  match validateStr sho with
  | Except.error e => Except.error e
  | Except.ok fsh => Except.ok ⟨fu, fp, fip, fih, fsp, fsh⟩

/-- Some required key is absent from the request. -/
def isMissing (rq : RawRequest) : Prop :=
  rq.user_name = none ∨ rq.password = none ∨ rq.imap_ssl_port = none ∨
    rq.imap_ssl_host = none ∨ rq.smtp_ssl_port = none ∨
    rq.smtp_ssl_host = none

/-- Did the computation succeed. -/
def exOk {α : Type} : Except Err α → Bool
  | Except.ok _ => true
  | Except.error _ => false

/-- The driver request from `__main__` with the `user_name` key removed. -/
def requestMissingUser : RawRequest :=
  ⟨none, some (PyPrim.pstr "DDFlkjlkj.78908$%"), some (PyPrim.pint 993),
    some (PyPrim.pstr "imap.gmail.com"), some (PyPrim.pint 465),
    some (PyPrim.pstr "smtp.gmail.com")⟩

/-- Any failure of `validateStr` is a `ValidationError`. -/
theorem validateStr_shape (x : PyPrim) :
    validateStr x = Except.error Err.validationError ∨
      ∃ s, validateStr x = Except.ok s := by
  cases x with
  | pstr s => exact Or.inr ⟨s, rfl⟩
  | pint n => exact Or.inr ⟨toString n, rfl⟩
  | pnone => exact Or.inl rfl

/-- Any failure of `validateInt` is a `ValidationError`. -/
theorem validateInt_shape (x : PyPrim) :
    validateInt x = Except.error Err.validationError ∨
      ∃ n, validateInt x = Except.ok n := by
  cases x with
  | pstr s =>
    cases h : s.toInt? with
    | none => exact Or.inl (by simp [validateInt, h])
    | some n => exact Or.inr ⟨n, by simp [validateInt, h]⟩
  | pint n => exact Or.inr ⟨n, rfl⟩
  | pnone => exact Or.inl rfl

/-- C3: for every raw request carrying all six keys with values of the
correct types (strings for the name, password and hosts, ints for the
ports), `ImapHandler.execute` succeeds and returns an `EmailData` whose six
fields equal the corresponding inputs, unchanged. -/
theorem c3_wellformed_request_roundtrips (u p ih sh : String) (ip sp : Int) :
    ImapHandler.execute ⟨some (PyPrim.pstr u), some (PyPrim.pstr p),
        some (PyPrim.pint ip), some (PyPrim.pstr ih),
        some (PyPrim.pint sp), some (PyPrim.pstr sh)⟩ =
      Except.ok ⟨u, p, ip, ih, sp, sh⟩ := rfl

/-- C2 counterexample: on the driver request with `user_name` removed, the
dict subscript raises `KeyError` before pydantic ever runs, so `execute`
does not fail with `ValidationError` as the claim states. -/
theorem c2_missing_key_cex :
    ImapHandler.execute requestMissingUser = Except.error Err.keyError ∧
    ImapHandler.execute requestMissingUser ≠
      Except.error Err.validationError :=
  ⟨rfl, fun h => Err.noConfusion (Except.error.inj h)⟩

/-- C2 (amended): a request with a missing required key fails with
`KeyError` (the subscript fails before validation); a request with all six
keys present but some value that pydantic cannot coerce to its field's
type fails with `ValidationError`. -/
theorem c2_missing_key_or_uncoercible_value (rq : RawRequest) :
    (isMissing rq → ImapHandler.execute rq = Except.error Err.keyError) ∧
    (∀ u p ipo iho spo sho,
      rq = ⟨some u, some p, some ipo, some iho, some spo, some sho⟩ →
      (exOk (validateStr u) && exOk (validateStr p) &&
        exOk (validateInt ipo) && exOk (validateStr iho) &&
        exOk (validateInt spo) && exOk (validateStr sho)) = false →
      ImapHandler.execute rq = Except.error Err.validationError) := by
  obtain ⟨f1, f2, f3, f4, f5, f6⟩ := rq
  constructor
  · cases f1 <;> cases f2 <;> cases f3 <;> cases f4 <;>
      cases f5 <;> cases f6 <;>
      simp_all [ImapHandler.execute, getItem, isMissing]
  · rintro u p ipo iho spo sho ⟨rfl, rfl, rfl, rfl, rfl, rfl⟩ hbad
    rcases validateStr_shape u with h1 | ⟨s1, h1⟩ <;>
      rcases validateStr_shape p with h2 | ⟨s2, h2⟩ <;>
      rcases validateInt_shape ipo with h3 | ⟨n3, h3⟩ <;>
      rcases validateStr_shape iho with h4 | ⟨s4, h4⟩ <;>
      rcases validateInt_shape spo with h5 | ⟨n5, h5⟩ <;>
      rcases validateStr_shape sho with h6 | ⟨s6, h6⟩ <;>
      simp_all [ImapHandler.execute, getItem, exOk]

/-- C2 amended-theorem witness: the driver request with `user_name` removed
is missing a key and indeed fails with `KeyError`. -/
theorem c2_missing_key_or_uncoercible_value_w :
    ImapHandler.execute requestMissingUser = Except.error Err.keyError :=
  (c2_missing_key_or_uncoercible_value requestMissingUser).1 (Or.inl rfl)

/-- Python values flowing through the chain: `None`, strings, ints, the raw
request dict, the validated `EmailData` model, and the
`(imap_server, smtp_server)` tuple produced by authentication. -/
inductive ChainVal where
  | vnone
  | vstr (s : String)
  | vint (n : Int)
  | rawReq (rq : RawRequest)
  | emailData (d : EmailData)
  | sessions
  deriving DecidableEq

/-- Python truthiness of a chain value: `None`, the empty string, zero and
the empty dict are falsy; an `EmailData` model and the session tuple are
always truthy. -/
def truthy : ChainVal → Bool
  | ChainVal.vnone => false
  | ChainVal.vstr s => s != ""
  | ChainVal.vint n => n != 0
  | ChainVal.rawReq rq =>
    rq.user_name.isSome || rq.password.isSome || rq.imap_ssl_port.isSome ||
      rq.imap_ssl_host.isSome || rq.smtp_ssl_port.isSome ||
      rq.smtp_ssl_host.isSome
  | ChainVal.emailData _ => true
  | ChainVal.sessions => true

/-- One chain stage: a numeric identity (so the trace can record which
stage's `execute` ran) and its `execute` transformation. -/
structure Stage where
  id : Nat
  exec : ChainVal → Except Err ChainVal

/-- `AbstractHandler.handle`: `prevs` is the predecessor chain reachable
from the stage through `_next_handler` links, nearest predecessor first.
With no predecessor the stage executes directly on the request; otherwise
the predecessor chain is resolved first, an exception from it propagates,
a truthy response is fed to this stage's `execute`, and a falsy response
makes the Python method fall off the end, returning `None` without
invoking `execute`.  The trace lists the ids of the stages whose `execute`
was invoked, in invocation order. -/
def handle : Stage → List Stage → ChainVal → List Nat × Except Err ChainVal
  | s, [], request => ([s.id], s.exec request)
  | s, p :: rest, request =>
    match handle p rest request with
    | (t, Except.error e) => (t, Except.error e)
    | (t, Except.ok response) =>
      if truthy response then (t ++ [s.id], s.exec response)
      else (t, Except.ok ChainVal.vnone)

/-- A stage whose `execute` returns the empty string, a falsy value other
than `None`; it plays the predecessor in the C1 counterexample. -/
def emptyStrStage : Stage := ⟨0, fun _ => Except.ok (ChainVal.vstr "")⟩

/-- An arbitrary downstream stage for the C1 counterexample. -/
def downstreamStage : Stage := ⟨1, fun v => Except.ok v⟩

/-- C1 counterexample: the predecessor's handle yields the falsy result
`""` and the downstream stage's `execute` is indeed not invoked (the trace
stays `[0]`), but `run` returns `None`, not that same falsy result: the
source's `handle` falls off the end of the function. -/
theorem c1_falsy_result_replaced_by_none_cex :
    (handle emptyStrStage [] ChainVal.vnone).2 =
        Except.ok (ChainVal.vstr "") ∧
    truthy (ChainVal.vstr "") = false ∧
    handle downstreamStage [emptyStrStage] ChainVal.vnone =
        ([0], Except.ok ChainVal.vnone) ∧
    Except.ok ChainVal.vnone ≠
        (Except.ok (ChainVal.vstr "") : Except Err ChainVal) :=
  ⟨rfl, by decide, rfl,
    fun h => ChainVal.noConfusion (Except.ok.inj h)⟩

/-- C1 (amended): for every stage with a linked predecessor, if the
predecessor's handle yields a falsy result without raising, the stage's
own `execute` is never invoked (the trace is exactly the predecessor's
trace) and `run` returns Python's `None` — which coincides with the
predecessor's falsy result only when that result is itself `None`, the
only falsy value the program's own stages ever produce. -/
theorem c1_short_circuit_skips_execute_returns_none (s p : Stage)
    (rest : List Stage) (request : ChainVal) (t : List Nat)
    (response : ChainVal)
    (hprev : handle p rest request = (t, Except.ok response))
    (hfalsy : truthy response = false) :
    handle s (p :: rest) request = (t, Except.ok ChainVal.vnone) := by
  simp [handle, hprev, hfalsy]

/-- C1 amended-theorem witness at the concrete two-stage chain. -/
theorem c1_short_circuit_skips_execute_returns_none_w :
    handle downstreamStage [emptyStrStage] ChainVal.vnone =
      ([0], Except.ok ChainVal.vnone) :=
  c1_short_circuit_skips_execute_returns_none downstreamStage emptyStrStage
    [] ChainVal.vnone [0] (ChainVal.vstr "") rfl (by decide)

/-- Predecessor-link state: maps a stage instance (by id) to its
`_next_handler` instance attribute; `none` means the instance attribute was
never written, so an attribute read falls back to the class-level default
`None`.  The class attribute is never reassigned in the source, so reading
a stage's predecessor is exactly `st stage`. -/
def PrevState : Type := Nat → Option Nat

/-- The state before any linking: no instance attribute is set, every read
yields the class-level default `None`. -/
def initPrev : PrevState := fun _ => none

/-- `AbstractHandler.set_prev`: stores `pred` as this instance's
`_next_handler` instance attribute and returns `pred`, which becomes the
receiver of a chained call. -/
def set_prev (st : PrevState) (stage pred : Nat) : PrevState × Nat :=
  (fun s => if s = stage then some pred else st s, pred)

/-- Stage id of the `ImapHandler` (credential builder) instance. -/
def imapId : Nat := 0

/-- Stage id of the `AuthenticationHandler` (session authenticator)
instance. -/
def authId : Nat := 1

/-- Stage id of the `GetMessageHandler` (message enumerator) instance. -/
def msgId : Nat := 2

/-- The driver's assembly `msg.set_prev(auth).set_prev(imap)`: the first
call links `auth` before `msg` and returns `auth`; the second call is made
on that return value, linking `imap` before `auth`. -/
def chainState : PrevState :=
  let r1 := set_prev initPrev msgId authId
  (set_prev r1.1 r1.2 imapId).1

/-- C4: `set_prev` records the predecessor on the stage and returns the
predecessor, and the driver's fluent chain of two calls yields the
predecessor graph builder ← authenticator ← enumerator: the enumerator's
predecessor is the authenticator, whose predecessor is the builder, which
has none. -/
theorem c4_set_prev_records_and_returns (st : PrevState) (stage pred : Nat) :
    (set_prev st stage pred).1 stage = some pred ∧
    (set_prev st stage pred).2 = pred ∧
    chainState msgId = some authId ∧
    chainState authId = some imapId ∧
    chainState imapId = none :=
  ⟨by simp [set_prev], rfl, by decide, by decide, by decide⟩

/-- C10: predecessor links are per-instance state: `set_prev` makes `pred`
the stage's unique predecessor, a later call on the same stage replaces
it, and no other stage's predecessor changes — the class-level default only
supplies `None` before the first write. -/
theorem c10_per_instance_links (st : PrevState) (a p b q : Nat) :
    (set_prev st a p).1 a = some p ∧
    (set_prev (set_prev st a p).1 a q).1 a = some q ∧
    (b ≠ a → (set_prev st a p).1 b = st b) ∧
    initPrev a = none :=
  ⟨by simp [set_prev], by simp [set_prev],
    fun h => by simp [set_prev, h], rfl⟩

/-- C10 witness: linking the authenticator before the enumerator leaves the
builder's predecessor untouched. -/
theorem c10_per_instance_links_w :
    (set_prev initPrev msgId authId).1 imapId = initPrev imapId :=
  (c10_per_instance_links initPrev msgId authId imapId 0).2.2.1 (by decide)

/-- Outcomes the network grants to `AuthenticationHandler.execute`: whether
each connect and login call succeeds. -/
structure AuthOutcome where
  imapConnectOk : Bool
  imapLoginOk : Bool
  smtpConnectOk : Bool
  smtpLoginOk : Bool

/-- Network calls made by `AuthenticationHandler.execute`. -/
inductive NetEv where
  | imapConnect
  | imapLogin
  | smtpConnect
  | smtpLogin
  deriving DecidableEq

/-- `AuthenticationHandler.execute`: connect to the IMAP host over SSL, log
in, then connect to the SMTP host over SSL and log in — four statements in
that source order; a connect raises `ConnectionError`, a login raises
`AuthenticationError`, and a raise aborts the remaining statements.  The
trace records the calls attempted; success stands for returning the
`(imap_server, smtp_server)` tuple. -/
def AuthenticationHandler.execute (env : AuthOutcome) :
    List NetEv × Except Err Unit :=
  if !env.imapConnectOk then
    ([NetEv.imapConnect], Except.error Err.connectionError)
  else if !env.imapLoginOk then
    ([NetEv.imapConnect, NetEv.imapLogin],
      Except.error Err.authenticationError)
  else if !env.smtpConnectOk then
    ([NetEv.imapConnect, NetEv.imapLogin, NetEv.smtpConnect],
      Except.error Err.connectionError)
  else if !env.smtpLoginOk then
    ([NetEv.imapConnect, NetEv.imapLogin, NetEv.smtpConnect,
        NetEv.smtpLogin], Except.error Err.authenticationError)
  else
    ([NetEv.imapConnect, NetEv.imapLogin, NetEv.smtpConnect,
        NetEv.smtpLogin], Except.ok ())

/-- The four network calls of the authenticator in source order. -/
def authCallOrder : List NetEv :=
  [NetEv.imapConnect, NetEv.imapLogin, NetEv.smtpConnect, NetEv.smtpLogin]

/-- C5: the trace of `AuthenticationHandler.execute` is always an initial
segment of connect-IMAP, login-IMAP, connect-SMTP, login-SMTP, so the
mailbox connect and login always precede any submission call; and when the
mailbox connect or login fails, no SMTP call occurs at all. -/
theorem c5_mailbox_auth_before_submission (env : AuthOutcome) :
    (AuthenticationHandler.execute env).1 =
      authCallOrder.take (AuthenticationHandler.execute env).1.length ∧
    (env.imapConnectOk = false ∨ env.imapLoginOk = false →
      NetEv.smtpConnect ∉ (AuthenticationHandler.execute env).1 ∧
      NetEv.smtpLogin ∉ (AuthenticationHandler.execute env).1) := by
  obtain ⟨a, b, c, d⟩ := env
  cases a <;> cases b <;> cases c <;> cases d <;> decide

/-- C5 witness: with the mailbox login rejected, no SMTP call occurs. -/
theorem c5_mailbox_auth_before_submission_w :
    NetEv.smtpConnect ∉
        (AuthenticationHandler.execute ⟨true, false, true, true⟩).1 ∧
    NetEv.smtpLogin ∉
        (AuthenticationHandler.execute ⟨true, false, true, true⟩).1 :=
  (c5_mailbox_auth_before_submission ⟨true, false, true, true⟩).2
    (Or.inr rfl)

/-- Outcomes the mailbox session grants to `GetMessageHandler.execute`:
whether `select('INBOX')` and `search(None, 'ALL')` succeed, the identifier
list the search returns (the source's `data[0].split()`), the raw RFC822
bytes each `fetch` returns, and the header pairs that UTF-8 decoding plus
`HeaderParser` yield for given bytes (in parser order, duplicates kept). -/
structure MailboxEnv where
  selectOk : Bool
  searchOk : Bool
  searchIds : List Nat
  fetchOutcome : Nat → Except Err (List Nat)
  decodeOutcome : List Nat → Except Err (List (String × String))

/-- Observable events of `GetMessageHandler.execute`: the mailbox calls,
each printed header line, and the final `close`. -/
inductive MailEv where
  | selectCall
  | searchCall
  | fetchCall (id : Nat)
  | emit (name value : String)
  | closeCall
  deriving DecidableEq

/-- The `for num in data[0].split()` loop of `GetMessageHandler.execute`:
fetch the message, decode it as UTF-8, parse its headers and print each
`(name, value)` pair in order; a raise aborts the loop and propagates. -/
def enumLoop (env : MailboxEnv) : List Nat → List MailEv × Except Err Unit
  | [] => ([], Except.ok ())
  | i :: rest =>
    match env.fetchOutcome i with
    | Except.error e => ([MailEv.fetchCall i], Except.error e)
    | Except.ok raw =>
      match env.decodeOutcome raw with
      | Except.error e => ([MailEv.fetchCall i], Except.error e)
      | Except.ok headers =>
        let r := enumLoop env rest
        (MailEv.fetchCall i ::
          (headers.map fun h => MailEv.emit h.1 h.2) ++ r.1, r.2)

/-- `GetMessageHandler.execute`: select INBOX, search ALL, run the fetch
loop over the returned identifiers and close the mailbox session — the
close statement runs only when the loop finishes without raising. -/
def GetMessageHandler.execute (env : MailboxEnv) :
    List MailEv × Except Err Unit :=
  if !env.selectOk then ([MailEv.selectCall], Except.error Err.mailboxError)
  else if !env.searchOk then
    ([MailEv.selectCall, MailEv.searchCall], Except.error Err.searchError)
  else
    match enumLoop env env.searchIds with
    | (t, Except.error e) =>
      (MailEv.selectCall :: MailEv.searchCall :: t, Except.error e)
    | (t, Except.ok _) =>
      (MailEv.selectCall :: MailEv.searchCall :: t ++ [MailEv.closeCall],
        Except.ok ())

/-- C6: with INBOX selection and the ALL search succeeding and zero
identifiers returned, `GetMessageHandler.execute` performs no fetch, emits
no header line, succeeds, and closes the session exactly once. -/
theorem c6_empty_search_no_emissions_one_close (env : MailboxEnv)
    (hsel : env.selectOk = true) (hsea : env.searchOk = true)
    (hids : env.searchIds = []) :
    GetMessageHandler.execute env =
      ([MailEv.selectCall, MailEv.searchCall, MailEv.closeCall],
        Except.ok ()) ∧
    (∀ i, MailEv.fetchCall i ∉ (GetMessageHandler.execute env).1) ∧
    (∀ n v, MailEv.emit n v ∉ (GetMessageHandler.execute env).1) ∧
    (GetMessageHandler.execute env).1.count MailEv.closeCall = 1 := by
  have hex : GetMessageHandler.execute env =
      ([MailEv.selectCall, MailEv.searchCall, MailEv.closeCall],
        Except.ok ()) := by
    simp [GetMessageHandler.execute, hsel, hsea, hids, enumLoop]
  refine ⟨hex, ?_, ?_, ?_⟩
  · intro i; rw [hex]; simp
  · intro n v; rw [hex]; simp
  · rw [hex]; decide

/-- Mailbox environment whose ALL search finds nothing. -/
def emptyMailbox : MailboxEnv :=
  ⟨true, true, [], fun _ => Except.error Err.fetchError,
    fun _ => Except.error Err.decodeError⟩

/-- C6 witness at the concrete empty mailbox. -/
theorem c6_empty_search_no_emissions_one_close_w :
    GetMessageHandler.execute emptyMailbox =
      ([MailEv.selectCall, MailEv.searchCall, MailEv.closeCall],
        Except.ok ()) :=
  (c6_empty_search_no_emissions_one_close emptyMailbox rfl rfl rfl).1

/-- The header lines printed during a trace, in order. -/
def emitted (t : List MailEv) : List (String × String) :=
  t.filterMap fun e =>
    match e with
    | MailEv.emit n v => some (n, v)
    | _ => none

/-- C7: when the search returns two identifiers whose messages decode to
the header lists `[(From, a@x.com), (Subject, hi)]` and
`[(From, b@x.com), (Subject, yo)]` in that search order, execute emits
exactly those four header lines — first message's headers in order, then
the second's — and succeeds. -/
theorem c7_two_messages_four_header_lines (env : MailboxEnv)
    (i j : Nat) (ri rj : List Nat)
    (hsel : env.selectOk = true) (hsea : env.searchOk = true)
    (hids : env.searchIds = [i, j])
    (hfi : env.fetchOutcome i = Except.ok ri)
    (hfj : env.fetchOutcome j = Except.ok rj)
    (hdi : env.decodeOutcome ri =
      Except.ok [("From", "a@x.com"), ("Subject", "hi")])
    (hdj : env.decodeOutcome rj =
      Except.ok [("From", "b@x.com"), ("Subject", "yo")]) :
    emitted (GetMessageHandler.execute env).1 =
      [("From", "a@x.com"), ("Subject", "hi"),
        ("From", "b@x.com"), ("Subject", "yo")] ∧
    (GetMessageHandler.execute env).2 = Except.ok () := by
  constructor <;>
    simp [GetMessageHandler.execute, hsel, hsea, hids, enumLoop, hfi, hfj,
      hdi, hdj, emitted]

/-- Mailbox environment with two messages, for the C7 witness. -/
def twoMessageMailbox : MailboxEnv :=
  ⟨true, true, [1, 2],
    fun i => if i = 1 then Except.ok [10] else Except.ok [20],
    fun raw =>
      if raw = [10] then
        Except.ok [("From", "a@x.com"), ("Subject", "hi")]
      else Except.ok [("From", "b@x.com"), ("Subject", "yo")]⟩

/-- C7 witness at the concrete two-message mailbox. -/
theorem c7_two_messages_four_header_lines_w :
    emitted (GetMessageHandler.execute twoMessageMailbox).1 =
      [("From", "a@x.com"), ("Subject", "hi"),
        ("From", "b@x.com"), ("Subject", "yo")] ∧
    (GetMessageHandler.execute twoMessageMailbox).2 = Except.ok () :=
  c7_two_messages_four_header_lines twoMessageMailbox 1 2 [10] [20]
    rfl rfl rfl rfl rfl rfl rfl

/-- Fetch plus UTF-8 decode plus header parse for one identifier, as the
loop body performs them. -/
def fetchDecode (env : MailboxEnv) (i : Nat) :
    Except Err (List (String × String)) :=
  match env.fetchOutcome i with
  | Except.error e => Except.error e
  | Except.ok raw => env.decodeOutcome raw

/-- A failing loop iteration stops the loop at its own fetch call. -/
theorem enumLoop_cons_err (env : MailboxEnv) (i : Nat) (rest : List Nat)
    (e : Err) (h : fetchDecode env i = Except.error e) :
    enumLoop env (i :: rest) = ([MailEv.fetchCall i], Except.error e) := by
  unfold fetchDecode at h
  cases hf : env.fetchOutcome i with
  | error e2 =>
    rw [hf] at h
    simp at h
    simp [enumLoop, hf, h]
  | ok raw =>
    rw [hf] at h
    simp at h
    simp [enumLoop, hf, h]

/-- A successful loop iteration contributes its fetch call and its header
emissions, then the loop continues. -/
theorem enumLoop_cons_ok (env : MailboxEnv) (i : Nat) (rest : List Nat)
    (hs : List (String × String))
    (h : fetchDecode env i = Except.ok hs) :
    enumLoop env (i :: rest) =
      (MailEv.fetchCall i :: (hs.map fun p => MailEv.emit p.1 p.2) ++
        (enumLoop env rest).1, (enumLoop env rest).2) := by
  unfold fetchDecode at h
  cases hf : env.fetchOutcome i with
  | error e2 => rw [hf] at h; exact Except.noConfusion h
  | ok raw =>
    rw [hf] at h
    simp at h
    simp [enumLoop, hf, h]

/-- When every identifier before `k` succeeds and `k` itself fails, the
loop result is `k`'s error, no close event is in the loop trace, and no
identifier outside the successful segment and distinct from `k` is ever
fetched. -/
theorem enumLoop_abort_at_failure (env : MailboxEnv) (pre : List Nat)
    (k : Nat) (post : List Nat) (e : Err)
    (hpre : ∀ i ∈ pre, ∃ hs, fetchDecode env i = Except.ok hs)
    (hk : fetchDecode env k = Except.error e) :
    (enumLoop env (pre ++ k :: post)).2 = Except.error e ∧
    MailEv.closeCall ∉ (enumLoop env (pre ++ k :: post)).1 ∧
    ∀ j, j ∉ pre → j ≠ k →
      MailEv.fetchCall j ∉ (enumLoop env (pre ++ k :: post)).1 := by
  induction pre with
  | nil =>
    rw [List.nil_append, enumLoop_cons_err env k post e hk]
    refine ⟨rfl, by simp, ?_⟩
    intro j _ hjk
    simp [hjk]
  | cons i rest ih =>
    obtain ⟨hs, hi⟩ := hpre i (List.mem_cons_self i rest)
    have hrest : ∀ x ∈ rest, ∃ h2, fetchDecode env x = Except.ok h2 :=
      fun x hx => hpre x (List.mem_cons_of_mem i hx)
    obtain ⟨ih1, ih2, ih3⟩ := ih hrest
    rw [List.cons_append,
      enumLoop_cons_ok env i (rest ++ k :: post) hs hi]
    refine ⟨ih1, ?_, ?_⟩
    · intro hmem
      rcases List.mem_cons.mp hmem with h1 | h1
      · exact MailEv.noConfusion h1
      rcases List.mem_append.mp h1 with h2 | h2
      · obtain ⟨p, _, hp⟩ := List.mem_map.mp h2
        exact MailEv.noConfusion hp
      · exact ih2 h2
    · intro j hj hjk hmem
      have hji : j ≠ i := fun hh => hj (hh ▸ List.mem_cons_self i rest)
      have hjr : j ∉ rest := fun hh => hj (List.mem_cons_of_mem i hh)
      rcases List.mem_cons.mp hmem with h1 | h1
      · exact hji (MailEv.fetchCall.inj h1)
      rcases List.mem_append.mp h1 with h2 | h2
      · obtain ⟨p, _, hp⟩ := List.mem_map.mp h2
        exact MailEv.noConfusion hp
      · exact ih3 j hjr hjk h2

/-- C9: if fetch or decode fails for some identifier mid-enumeration, the
whole enumeration aborts at that identifier and the error propagates: no
later identifier is fetched and the mailbox `close` is never invoked on
this failure path. -/
theorem c9_fetch_failure_aborts_without_close (env : MailboxEnv)
    (pre : List Nat) (k : Nat) (post : List Nat) (e : Err)
    (hsel : env.selectOk = true) (hsea : env.searchOk = true)
    (hids : env.searchIds = pre ++ k :: post)
    (hpre : ∀ i ∈ pre, ∃ hs, fetchDecode env i = Except.ok hs)
    (hk : fetchDecode env k = Except.error e) :
    (GetMessageHandler.execute env).2 = Except.error e ∧
    MailEv.closeCall ∉ (GetMessageHandler.execute env).1 ∧
    ∀ j, j ∉ pre → j ≠ k →
      MailEv.fetchCall j ∉ (GetMessageHandler.execute env).1 := by
  obtain ⟨h1, h2, h3⟩ := enumLoop_abort_at_failure env pre k post e hpre hk
  have hsplit : GetMessageHandler.execute env =
      (MailEv.selectCall :: MailEv.searchCall ::
        (enumLoop env (pre ++ k :: post)).1, Except.error e) := by
    rcases hloop : enumLoop env (pre ++ k :: post) with ⟨t, r⟩
    rw [hloop] at h1
    simp only at h1
    subst h1
    simp [GetMessageHandler.execute, hsel, hsea, hids, hloop]
  rw [hsplit]
  refine ⟨rfl, ?_, ?_⟩
  · intro hmem
    rcases List.mem_cons.mp hmem with hc | hc
    · exact MailEv.noConfusion hc
    rcases List.mem_cons.mp hc with hc2 | hc2
    · exact MailEv.noConfusion hc2
    · exact h2 hc2
  · intro j hj hjk hmem
    rcases List.mem_cons.mp hmem with hc | hc
    · exact MailEv.noConfusion hc
    rcases List.mem_cons.mp hc with hc2 | hc2
    · exact MailEv.noConfusion hc2
    · exact h3 j hj hjk hc2

/-- Mailbox whose single message's fetch raises, for the C9 witness. -/
def failingFetchMailbox : MailboxEnv :=
  ⟨true, true, [5], fun _ => Except.error Err.fetchError,
    fun _ => Except.error Err.decodeError⟩

/-- C9 witness: the fetch failure propagates and the session stays open. -/
theorem c9_fetch_failure_aborts_without_close_w :
    (GetMessageHandler.execute failingFetchMailbox).2 =
        Except.error Err.fetchError ∧
      MailEv.closeCall ∉ (GetMessageHandler.execute failingFetchMailbox).1 :=
  ⟨(c9_fetch_failure_aborts_without_close failingFetchMailbox [] 5 []
      Err.fetchError rfl rfl rfl (by simp) rfl).1,
    (c9_fetch_failure_aborts_without_close failingFetchMailbox [] 5 []
      Err.fetchError rfl rfl rfl (by simp) rfl).2.1⟩

/-- The credential-builder stage of the canonical chain: its `execute`
expects the raw request dict (anything else is a runtime type failure in
Python) and wraps the validated `EmailData`. -/
def imapStage : Stage :=
  ⟨imapId, fun v =>
    match v with
    | ChainVal.rawReq rq =>
      match ImapHandler.execute rq with
      | Except.error e => Except.error e
      | Except.ok d => Except.ok (ChainVal.emailData d)
    | _ => Except.error Err.typeError⟩

/-- The session-authenticator stage of the canonical chain: on an
`EmailData` input it performs the four network calls of
`AuthenticationHandler.execute` under `env` and returns the session
tuple. -/
def authStage (env : AuthOutcome) : Stage :=
  ⟨authId, fun v =>
    match v with
    | ChainVal.emailData _ =>
      match (AuthenticationHandler.execute env).2 with
      | Except.error e => Except.error e
      | Except.ok _ => Except.ok ChainVal.sessions
    | _ => Except.error Err.typeError⟩

/-- The message-enumerator stage of the canonical chain: on the session
tuple it runs `GetMessageHandler.execute` under `env`; the Python method
returns `None`. -/
def msgStage (env : MailboxEnv) : Stage :=
  ⟨msgId, fun v =>
    match v with
    | ChainVal.sessions =>
      match (GetMessageHandler.execute env).2 with
      | Except.error e => Except.error e
      | Except.ok _ => Except.ok ChainVal.vnone
    | _ => Except.error Err.typeError⟩

/-- C8: on the canonical chain, for every initial request whose credential
building succeeds, if the authenticator's execute raises
`AuthenticationError` then the enumerator's execute is never invoked (its
id is absent from the invocation trace) and `run` propagates exactly that
`AuthenticationError`. -/
theorem c8_auth_error_skips_enumerator_and_propagates (aenv : AuthOutcome)
    (menv : MailboxEnv) (rq : RawRequest) (d : EmailData)
    (hcred : ImapHandler.execute rq = Except.ok d)
    (hauth : (AuthenticationHandler.execute aenv).2 =
      Except.error Err.authenticationError) :
    handle (msgStage menv) [authStage aenv, imapStage]
        (ChainVal.rawReq rq) =
      ([imapId, authId], Except.error Err.authenticationError) ∧
    msgId ∉ [imapId, authId] := by
  refine ⟨?_, by decide⟩
  simp [handle, imapStage, authStage, msgStage, hcred, hauth, truthy]

/-- The driver's full request from `__main__`. -/
def driverRequest : RawRequest :=
  ⟨some (PyPrim.pstr "roboket.test@gmail.com"),
    some (PyPrim.pstr "DDFlkjlkj.78908$%"), some (PyPrim.pint 993),
    some (PyPrim.pstr "imap.gmail.com"), some (PyPrim.pint 465),
    some (PyPrim.pstr "smtp.gmail.com")⟩

/-- Network outcome in which the mailbox server rejects the password. -/
def wrongPassword : AuthOutcome := ⟨true, false, true, true⟩

/-- C8 witness: the driver request with a rejected mailbox login. -/
theorem c8_auth_error_skips_enumerator_and_propagates_w :
    handle (msgStage emptyMailbox) [authStage wrongPassword, imapStage]
        (ChainVal.rawReq driverRequest) =
      ([imapId, authId], Except.error Err.authenticationError) :=
  (c8_auth_error_skips_enumerator_and_propagates wrongPassword
    emptyMailbox driverRequest
    ⟨"roboket.test@gmail.com", "DDFlkjlkj.78908$%", 993, "imap.gmail.com",
      465, "smtp.gmail.com"⟩ rfl rfl).1
